import Mathlib

/-!
Shallow embedding of the Oxide plugin editor (Source/PluginEditor.h,
Source/PluginEditor.cpp) and proofs about the spec claims.

The editor wires 15 plugin parameters to a web-rendered UI through
relay/attachment pairs, serves web resources through a resource-provider
hook, pushes visualizer metering data on a 60 Hz timer, and bridges an
optional license-activation subsystem.  External collaborators (the GUI
framework's browser view, var payload type, and the activation client)
are modelled from the boundary contracts stated in the spec.
-/

namespace Oxide

/-! ### Strings

The source manipulates `juce::String` values with `startsWith`,
`substring`, `isEmpty` and `endsWith`.  We embed those methods as
character-list operations (a `juce::String` is a sequence of characters;
these methods are plain sequence operations on it). -/

namespace JStr

/-- `juce::String::startsWith (pre)`: the string begins with `pre`. -/
def startsWith (s pre : String) : Bool :=
  pre.data.isPrefixOf s.data

/-- `juce::String::substring (n)`: drop the first `n` characters. -/
def substring (s : String) (n : Nat) : String :=
  ⟨s.data.drop n⟩

/-- `juce::String::isEmpty ()`. -/
def isEmpty (s : String) : Bool :=
  s.data.isEmpty

/-- `juce::String::endsWith (post)`: the string ends with `post`. -/
def endsWith (s post : String) : Bool :=
  post.data.isSuffixOf s.data

end JStr

/-! ### Parameter keys

`ParameterIDs.h` is not part of the visible fragment; each identifier in
it is an opaque stable key.  The editor uses exactly these 15 keys
(PluginEditor.cpp lines 16-30). -/

/-- The 15 parameter keys referenced by the editor. -/
inductive ParamKey where
  | bitcrush
  | downsample
  | noise
  | crackle
  | wobble
  | dropout
  | saturation
  | age
  | filterCutoff
  | filterRes
  | filterDrive
  | mode
  | mix
  | output
  | bypass
  deriving DecidableEq, Fintype, Repr

/-- The two relay/attachment flavours used by the source:
`WebSliderRelay`/`WebSliderParameterAttachment` for continuous
parameters, `WebToggleButtonRelay`/`WebToggleButtonParameterAttachment`
for the boolean bypass. -/
inductive RelayKind where
  | slider
  | toggleButton
  deriving DecidableEq, Repr

/-- A relay constructed in the editor constructor: its flavour and the
parameter key passed to its constructor. -/
structure RelayCtor where
  kind : RelayKind
  key : ParamKey
  deriving DecidableEq, Repr

/-- The relays created by the editor constructor, in source order
(PluginEditor.cpp lines 16-30). -/
def relaysCreated : List RelayCtor :=
  [⟨.slider, .bitcrush⟩,
   ⟨.slider, .downsample⟩,
   ⟨.slider, .noise⟩,
   ⟨.slider, .crackle⟩,
   ⟨.slider, .wobble⟩,
   ⟨.slider, .dropout⟩,
   ⟨.slider, .saturation⟩,
   ⟨.slider, .age⟩,
   ⟨.slider, .filterCutoff⟩,
   ⟨.slider, .filterRes⟩,
   ⟨.slider, .filterDrive⟩,
   ⟨.slider, .mode⟩,
   ⟨.slider, .mix⟩,
   ⟨.slider, .output⟩,
   ⟨.toggleButton, .bypass⟩]

/-- An attachment constructed in the editor constructor: its flavour,
the key used to look up the parameter (`apvts.getParameter(...)`), and
the key of the relay it is bound to (`*...Relay`). -/
structure AttachmentCtor where
  kind : RelayKind
  param : ParamKey
  relay : ParamKey
  deriving DecidableEq, Repr

/-- The attachments created by the editor constructor, in source order
(PluginEditor.cpp lines 36-65).  Each line binds the parameter looked up
by a key to the relay constructed for the same key. -/
def attachmentsCreated : List AttachmentCtor :=
  [⟨.slider, .bitcrush, .bitcrush⟩,
   ⟨.slider, .downsample, .downsample⟩,
   ⟨.slider, .noise, .noise⟩,
   ⟨.slider, .crackle, .crackle⟩,
   ⟨.slider, .wobble, .wobble⟩,
   ⟨.slider, .dropout, .dropout⟩,
   ⟨.slider, .saturation, .saturation⟩,
   ⟨.slider, .age, .age⟩,
   ⟨.slider, .filterCutoff, .filterCutoff⟩,
   ⟨.slider, .filterRes, .filterRes⟩,
   ⟨.slider, .filterDrive, .filterDrive⟩,
   ⟨.slider, .mode, .mode⟩,
   ⟨.slider, .mix, .mix⟩,
   ⟨.slider, .output, .output⟩,
   ⟨.toggleButton, .bypass, .bypass⟩]

/-! ### Construction order

The constructor body (PluginEditor.cpp lines 9-69) runs:
relay construction (16-30), then `setupWebView()` (32), which registers
every relay with the browser options via `withOptionsFrom` (122-136) and
then constructs the `WebBrowserComponent` (164), then attachment
construction (36-65), then `startTimerHz(60)` (68). -/

/-- One step of the editor constructor, in the order the source
executes them. -/
inductive CtorStep where
  | createRelay (k : ParamKey)
  | registerRelay (k : ParamKey)
  | createWebView
  | createAttachment (k : ParamKey)
  | startTimer
  deriving DecidableEq, Repr

/-- The keys in declaration/construction order used by every one of the
per-key sequences in the source (relays lines 16-30, `withOptionsFrom`
lines 122-136, attachments lines 36-65, members lines 29-60). -/
def keyOrder : List ParamKey :=
  [.bitcrush, .downsample, .noise, .crackle, .wobble, .dropout,
   .saturation, .age, .filterCutoff, .filterRes, .filterDrive,
   .mode, .mix, .output, .bypass]

/-- The constructor's execution trace (PluginEditor.cpp lines 9-69 with
`setupWebView` inlined at its call site, line 32). -/
def constructionTrace : List CtorStep :=
  keyOrder.map CtorStep.createRelay
    ++ keyOrder.map CtorStep.registerRelay
    ++ [CtorStep.createWebView]
    ++ keyOrder.map CtorStep.createAttachment
    ++ [CtorStep.startTimer]

/-! ### Destruction order

The destructor body (PluginEditor.cpp lines 71-74) stops the timer.
After the body, the non-static data members are destroyed in reverse
order of their declaration in PluginEditor.h (lines 26-74). -/

/-- A data member of the editor, one constructor per declaration in
PluginEditor.h lines 26-74 (`processorRef` is a reference member). -/
inductive Member where
  | processorRefM
  | relayM (k : ParamKey)
  | attachmentM (k : ParamKey)
  | webViewM
  | resourcesDirM
  | visualizerTimerM
  deriving DecidableEq, Repr

/-- The editor's members in declaration order (PluginEditor.h lines
26-74): `processorRef`, the 15 relays, the 15 attachments, `webView`,
`resourcesDir_`, `visualizerTimer`. -/
def memberDecls : List Member :=
  [Member.processorRefM]
    ++ keyOrder.map Member.relayM
    ++ keyOrder.map Member.attachmentM
    ++ [Member.webViewM, Member.resourcesDirM, Member.visualizerTimerM]

/-- One step of editor destruction. -/
inductive DtorStep where
  | stopTimer
  | destroyMember (m : Member)
  deriving DecidableEq, Repr

/-- The destruction trace: the destructor body (`stopTimer`,
PluginEditor.cpp line 73) followed by member destruction in reverse
declaration order, as C++ prescribes. -/
def destructionTrace : List DtorStep :=
  DtorStep.stopTimer :: memberDecls.reverse.map DtorStep.destroyMember

/-! ### Resource provider

`setupWebView` installs a `withResourceProvider` lambda
(PluginEditor.cpp lines 93-121) that normalises the request path,
resolves it against `resourcesDir_`, and returns the file bytes with a
MIME type inferred from the path, or `std::nullopt` when the resolved
file does not exist. -/

/-- The `juce::WebBrowserComponent::Resource` returned by the provider:
the file bytes and the MIME type string. -/
structure Resource where
  data : List Nat
  mimeType : String
  deriving DecidableEq, Repr

/-- Path normalisation done by the resource-provider lambda
(PluginEditor.cpp lines 96-98): strip one leading slash, and replace an
empty path by `index.html`. -/
def resolvePath (url : String) : String :=
  let path := if JStr.startsWith url "/" then JStr.substring url 1 else url
  if JStr.isEmpty path then "index.html" else path

/-- MIME inference from the normalised path (PluginEditor.cpp lines
103-110): the source's if/else-if chain over `endsWith`. -/
def mimeTypeFor (path : String) : String :=
  if JStr.endsWith path ".html" then "text/html"
  else if JStr.endsWith path ".css" then "text/css"
  else if JStr.endsWith path ".js" then "application/javascript"
  else if JStr.endsWith path ".json" then "application/json"
  else if JStr.endsWith path ".png" then "image/png"
  else if JStr.endsWith path ".svg" then "image/svg+xml"
  else if JStr.endsWith path ".woff2" then "font/woff2"
  else "application/octet-stream"

/-- The resource-provider lambda (PluginEditor.cpp lines 94-121).
`fs` abstracts the file system below `resourcesDir_`: it maps a
relative path to the bytes of an existing file, and to `none` when
`existsAsFile()` is false for that path. -/
def resourceProvider (fs : String → Option (List Nat)) (url : String) :
    Option Resource :=
  let path := resolvePath url
  match fs path with
  | none => none
  | some bytes => some ⟨bytes, mimeTypeFor path⟩

theorem resolvePath_root : resolvePath "/" = "index.html" := by decide

theorem resolvePath_index : resolvePath "/index.html" = "index.html" := by decide

/-- Zeta-reduced form of the provider, for rewriting. -/
theorem resourceProvider_unfold (fs : String → Option (List Nat))
    (url : String) :
    resourceProvider fs url =
      match fs (resolvePath url) with
      | none => none
      | some bytes => some ⟨bytes, mimeTypeFor (resolvePath url)⟩ := rfl

/-- A path cannot end in two extensions neither of which is a suffix of
the other. -/
theorem endsWith_excl (e₂ : String) {p e₁ : String}
    (h : JStr.endsWith p e₁ = true)
    (h₁ : List.isSuffixOf e₁.data e₂.data = false)
    (h₂ : List.isSuffixOf e₂.data e₁.data = false) :
    JStr.endsWith p e₂ = false := by
  unfold JStr.endsWith at h ⊢
  rw [List.isSuffixOf_iff_suffix] at h
  by_contra hc
  rw [Bool.not_eq_false, List.isSuffixOf_iff_suffix] at hc
  rcases List.suffix_or_suffix_of_suffix h hc with hs | hs
  · rw [← List.isSuffixOf_iff_suffix] at hs
    rw [hs] at h₁
    simp at h₁
  · rw [← List.isSuffixOf_iff_suffix] at hs
    rw [hs] at h₂
    simp at h₂

/-- A sample file system for witnesses: only `index.html` exists. -/
def fsEx : String → Option (List Nat) :=
  fun p => if p == "index.html" then some [104] else none

/-- C5: the provider returns for request path `/` the same payload
(bytes and MIME type) as for `/index.html`, and for every request whose
resolved file does not exist it returns `none` (not-found) — the lambda
is total, nothing is thrown. -/
theorem resource_provider_root_and_missing
    (fs : String → Option (List Nat)) :
    resourceProvider fs "/" = resourceProvider fs "/index.html"
    ∧ ∀ url : String, fs (resolvePath url) = none →
        resourceProvider fs url = none := by
  constructor
  · rw [resourceProvider_unfold, resourceProvider_unfold,
      resolvePath_root, resolvePath_index]
  · intro url h
    rw [resourceProvider_unfold, h]

/-- C5 witness: on a concrete file system holding only `index.html`,
the root path serves the same resource as `/index.html`, and a missing
path yields not-found. -/
theorem resource_provider_root_and_missing_witness :
    resourceProvider fsEx "/" = resourceProvider fsEx "/index.html"
    ∧ resourceProvider fsEx "/missing.png" = none :=
  ⟨(resource_provider_root_and_missing fsEx).1,
   (resource_provider_root_and_missing fsEx).2 "/missing.png" (by decide)⟩

/-- C6: every returned resource carries the MIME type inferred from the
normalised request path, and that inference is exactly the claimed
table: html, css, js, json, png, svg, woff2, and octet-stream for any
other extension. -/
theorem mime_type_table :
    (∀ (fs : String → Option (List Nat)) (url : String) (r : Resource),
        resourceProvider fs url = some r →
        r.mimeType = mimeTypeFor (resolvePath url))
    ∧ (∀ p, JStr.endsWith p ".html" = true → mimeTypeFor p = "text/html")
    ∧ (∀ p, JStr.endsWith p ".css" = true → mimeTypeFor p = "text/css")
    ∧ (∀ p, JStr.endsWith p ".js" = true →
        mimeTypeFor p = "application/javascript")
    ∧ (∀ p, JStr.endsWith p ".json" = true →
        mimeTypeFor p = "application/json")
    ∧ (∀ p, JStr.endsWith p ".png" = true → mimeTypeFor p = "image/png")
    ∧ (∀ p, JStr.endsWith p ".svg" = true → mimeTypeFor p = "image/svg+xml")
    ∧ (∀ p, JStr.endsWith p ".woff2" = true → mimeTypeFor p = "font/woff2")
    ∧ (∀ p, JStr.endsWith p ".html" = false → JStr.endsWith p ".css" = false →
        JStr.endsWith p ".js" = false → JStr.endsWith p ".json" = false →
        JStr.endsWith p ".png" = false → JStr.endsWith p ".svg" = false →
        JStr.endsWith p ".woff2" = false →
        mimeTypeFor p = "application/octet-stream") := by
  refine ⟨?_, ?_, ?_, ?_, ?_, ?_, ?_, ?_, ?_⟩
  · intro fs url r h
    rw [resourceProvider_unfold] at h
    cases hfs : fs (resolvePath url) with
    | none => rw [hfs] at h; cases h
    | some bytes =>
        rw [hfs] at h
        cases h
        rfl
  · intro p h
    simp [mimeTypeFor, h]
  · intro p h
    simp [mimeTypeFor, h,
      endsWith_excl ".html" h (by decide) (by decide)]
  · intro p h
    simp [mimeTypeFor, h,
      endsWith_excl ".html" h (by decide) (by decide),
      endsWith_excl ".css" h (by decide) (by decide)]
  · intro p h
    simp [mimeTypeFor, h,
      endsWith_excl ".html" h (by decide) (by decide),
      endsWith_excl ".css" h (by decide) (by decide),
      endsWith_excl ".js" h (by decide) (by decide)]
  · intro p h
    simp [mimeTypeFor, h,
      endsWith_excl ".html" h (by decide) (by decide),
      endsWith_excl ".css" h (by decide) (by decide),
      endsWith_excl ".js" h (by decide) (by decide),
      endsWith_excl ".json" h (by decide) (by decide)]
  · intro p h
    simp [mimeTypeFor, h,
      endsWith_excl ".html" h (by decide) (by decide),
      endsWith_excl ".css" h (by decide) (by decide),
      endsWith_excl ".js" h (by decide) (by decide),
      endsWith_excl ".json" h (by decide) (by decide),
      endsWith_excl ".png" h (by decide) (by decide)]
  · intro p h
    simp [mimeTypeFor, h,
      endsWith_excl ".html" h (by decide) (by decide),
      endsWith_excl ".css" h (by decide) (by decide),
      endsWith_excl ".js" h (by decide) (by decide),
      endsWith_excl ".json" h (by decide) (by decide),
      endsWith_excl ".png" h (by decide) (by decide),
      endsWith_excl ".svg" h (by decide) (by decide)]
  · intro p h₁ h₂ h₃ h₄ h₅ h₆ h₇
    simp [mimeTypeFor, h₁, h₂, h₃, h₄, h₅, h₆, h₇]

/-- C6 witness: the MIME table evaluated through the theorem at
concrete paths, one per extension row, plus the default row and a
resource served through the provider. -/
theorem mime_type_table_witness :
    (Resource.mk [104] "text/html").mimeType
        = mimeTypeFor (resolvePath "/index.html")
    ∧ mimeTypeFor "index.html" = "text/html"
    ∧ mimeTypeFor "style.css" = "text/css"
    ∧ mimeTypeFor "app.js" = "application/javascript"
    ∧ mimeTypeFor "data.json" = "application/json"
    ∧ mimeTypeFor "logo.png" = "image/png"
    ∧ mimeTypeFor "icon.svg" = "image/svg+xml"
    ∧ mimeTypeFor "font.woff2" = "font/woff2"
    ∧ mimeTypeFor "README" = "application/octet-stream" :=
  ⟨mime_type_table.1 fsEx "/index.html" ⟨[104], "text/html"⟩ (by decide),
   mime_type_table.2.1 "index.html" (by decide),
   mime_type_table.2.2.1 "style.css" (by decide),
   mime_type_table.2.2.2.1 "app.js" (by decide),
   mime_type_table.2.2.2.2.1 "data.json" (by decide),
   mime_type_table.2.2.2.2.2.1 "logo.png" (by decide),
   mime_type_table.2.2.2.2.2.2.1 "icon.svg" (by decide),
   mime_type_table.2.2.2.2.2.2.2.1 "font.woff2" (by decide),
   mime_type_table.2.2.2.2.2.2.2.2 "README" (by decide) (by decide)
     (by decide) (by decide) (by decide) (by decide) (by decide)⟩

/-! ### Events, payloads, and the browser emission primitive -/

/-- Model of the GUI framework's `juce::var` payload values.  `ext`
injects values whose concrete representation the fragment does not
determine (the DSP metering numbers). -/
inductive JVal (α : Type) where
  | void
  | str (s : String)
  | boolVal (b : Bool)
  | intVal (n : Int)
  | ext (a : α)
  | obj (props : List (String × JVal α))

/-- An event pushed into the browser view: its name and its payload. -/
structure Event (α : Type) where
  name : String
  payload : JVal α

/-- Modelled from the spec: boundary contract toward the excluded
browser engine — `emitEventIfBrowserIsVisible` is an event-emission
primitive that is a no-op when the view is not visible.  It emits the
event exactly once when the view is visible, nothing otherwise. -/
def emitEventIfBrowserIsVisible {α : Type} (visible : Bool)
    (e : Event α) : List (Event α) :=
  if visible then [e] else []

/-- Modelled from the spec: the excluded GUI framework's
`var::getProperty (name, default)` — the named property of an object
payload, or the default when the payload is not an object or lacks the
property. -/
def JVal.getProperty {α : Type} (v : JVal α) (name : String)
    (deflt : JVal α) : JVal α :=
  match v with
  | .obj props =>
      match props.lookup name with
      | some x => x
      | none => deflt
  | _ => deflt

/-- Modelled from the spec: whether a payload object carries a named
property (false for non-object payloads). -/
def JVal.hasProperty {α : Type} (v : JVal α) (name : String) : Bool :=
  match v with
  | .obj props => (props.lookup name).isSome
  | _ => false

/-- Modelled from the spec: the excluded GUI framework's
`var::toString ()` — a total string conversion (a string converts to
itself, a void value to the empty string; no payload fails to
convert). -/
def JVal.toString {α : Type} : JVal α → String
  | .void => ""
  | .str s => s
  | .boolVal b => if b then "1" else "0"
  | .intVal n => ToString.toString n
  | .ext _ => ""
  | .obj _ => ""

/-! ### The processor boundary and the activation subsystem -/

/-- `ActivationInfo` as serialised by the editor (PluginEditor.cpp
lines 204-211 and 233-239). -/
structure ActivationInfo where
  activationCode : String
  machineId : String
  activatedAt : String
  currentActivations : Int
  maxActivations : Int
  isValid : Bool

/-- Modelled from the spec: the terminal outcomes of the excluded
activation client — success, invalid code, failure, network error.
`Valid` is the success status the source compares against
(PluginEditor.cpp line 231). -/
inductive ActivationStatus where
  | Valid
  | Invalid
  | Failed
  | NetworkError
  deriving DecidableEq, Repr

/-- Modelled from the spec: `beatconnect::statusToString`, the status
string carried by result events. -/
def statusToString : ActivationStatus → String
  | .Valid => "Valid"
  | .Invalid => "Invalid"
  | .Failed => "Failed"
  | .NetworkError => "NetworkError"

/-- Modelled from the spec: boundary contract toward the excluded
license-activation subsystem — `isConfigured()`, `isActivated()`,
`getActivationInfo()`; the asynchronous `activate`/`deactivate`
completions are modelled by the completion-task functions below. -/
structure Activation where
  isConfigured : Bool
  isActivated : Bool
  getActivationInfo : ActivationInfo

/-- Modelled from the spec: the processor accessors the editor reads —
the seven metering accessors (safe to call at 60 Hz), the
activation-enabled flag, and the activation subsystem handle (`none`
models a null pointer). -/
structure OxideAudioProcessor (α : Type) where
  getCurrentRMS : α
  getCurrentPeak : α
  getWobblePhase : α
  getCrackleActivity : α
  getCurrentMode : α
  isBypassed : Bool
  getDegradationAmount : α
  hasActivationEnabled : Bool
  getActivation : Option Activation

/-! ### Visualizer feed -/

/-- The payload built by `VisualizerTimer::timerCallback`
(PluginEditor.cpp lines 180-187): the seven metering values sampled
from the processor, in source property order. -/
def visualizerPayload {α : Type} (proc : OxideAudioProcessor α) :
    JVal α :=
  .obj [("rms", .ext proc.getCurrentRMS),
        ("peak", .ext proc.getCurrentPeak),
        ("wobblePhase", .ext proc.getWobblePhase),
        ("crackleActivity", .ext proc.getCrackleActivity),
        ("mode", .ext proc.getCurrentMode),
        ("bypassed", .boolVal proc.isBypassed),
        ("degradation", .ext proc.getDegradationAmount)]

/-- `VisualizerTimer::timerCallback` (PluginEditor.cpp lines 176-190):
the events emitted by one timer tick, given whether `webView` is
non-null and whether the view is visible. -/
def timerCallback {α : Type} (webViewExists visible : Bool)
    (proc : OxideAudioProcessor α) : List (Event α) :=
  if webViewExists = false then []
  else emitEventIfBrowserIsVisible visible
    ⟨"visualizerData", visualizerPayload proc⟩

/-! ### Activation bridge -/

/-- The `getActivationStatus` event listener registered in
`setupWebView` (PluginEditor.cpp lines 137-147), activation-enabled
build: it emits an `activationState` payload whose `isConfigured` is
read from `processorRef.hasActivationEnabled()` and whose `isActivated`
is the literal `false`, through the visibility-gated primitive. -/
def getActivationStatusListener {α : Type}
    (proc : OxideAudioProcessor α) (visible : Bool) : List (Event α) :=
  emitEventIfBrowserIsVisible visible
    ⟨"activationState",
     .obj [("isConfigured", .boolVal proc.hasActivationEnabled),
           ("isActivated", .boolVal false)]⟩

/-- The `info` object serialised from `ActivationInfo`
(PluginEditor.cpp lines 204-211 and 233-239), in source property
order. -/
def activationInfoVar {α : Type} (info : ActivationInfo) : JVal α :=
  .obj [("activationCode", .str info.activationCode),
        ("machineId", .str info.machineId),
        ("activatedAt", .str info.activatedAt),
        ("currentActivations", .intVal info.currentActivations),
        ("maxActivations", .intVal info.maxActivations),
        ("isValid", .boolVal info.isValid)]

/-- `OxideAudioProcessorEditor::sendActivationState` (PluginEditor.cpp
lines 193-216): a null activation handle returns immediately; otherwise
the current `isConfigured`/`isActivated` values are emitted as
`activationState`, with the `info` object appended exactly when the
subsystem reports activated. -/
def sendActivationState {α : Type} (proc : OxideAudioProcessor α)
    (visible : Bool) : List (Event α) :=
  match proc.getActivation with
  | none => []
  | some activation =>
      let base := [("isConfigured", JVal.boolVal activation.isConfigured),
                   ("isActivated", JVal.boolVal activation.isActivated)]
      let props := if activation.isActivated
        then base ++ [("info",
          activationInfoVar activation.getActivationInfo)]
        else base
      emitEventIfBrowserIsVisible visible ⟨"activationState", .obj props⟩

/-- `OxideAudioProcessorEditor::handleGetActivationStatus`
(PluginEditor.cpp lines 263-266): forwards to `sendActivationState`.
It is declared and defined but never registered as the
`getActivationStatus` listener. -/
def handleGetActivationStatus {α : Type} (proc : OxideAudioProcessor α)
    (visible : Bool) : List (Event α) :=
  sendActivationState proc visible

/-- `OxideAudioProcessorEditor::handleActivateLicense` (PluginEditor.cpp
lines 218-246), synchronous part: with a null activation handle it
returns immediately; otherwise it reads the payload's `code` property
(defaulting to the empty string), converts it to a string, and passes
it to `activation->activate`.  The result pairs the code passed to
`activate` (`none` when no call is made) with the events the handler
emits synchronously (none — emission happens in the completion
task). -/
def handleActivateLicense {α : Type} (proc : OxideAudioProcessor α)
    (data : JVal α) : Option String × List (Event α) :=
  match proc.getActivation with
  | none => (none, [])
  | some _ => (some ((data.getProperty "code" (.str "")).toString), [])

/-- The UI task enqueued via `MessageManager::callAsync` by the
`activate` completion callback (PluginEditor.cpp lines 226-245): build
the result payload, carrying `info` exactly when the status is `Valid`,
and emit `activationResult` through the visibility-gated primitive.
`visible` is the view's visibility at the moment the redispatched task
runs. -/
def activateCompletionTask {α : Type} (status : ActivationStatus)
    (info : ActivationInfo) (visible : Bool) : List (Event α) :=
  let base := [("status", JVal.str (statusToString status))]
  let props := if status = ActivationStatus.Valid
    then base ++ [("info", activationInfoVar info)]
    else base
  emitEventIfBrowserIsVisible visible ⟨"activationResult", .obj props⟩

/-- `OxideAudioProcessorEditor::handleDeactivateLicense`
(PluginEditor.cpp lines 248-261), synchronous part: with a null
activation handle it returns immediately; otherwise it calls
`activation->deactivate`.  The Bool records whether `deactivate` was
called; the list holds the events emitted synchronously (none). -/
def handleDeactivateLicense {α : Type} (proc : OxideAudioProcessor α)
    (_data : JVal α) : Bool × List (Event α) :=
  match proc.getActivation with
  | none => (false, [])
  | some _ => (true, [])

/-- The UI task enqueued via `MessageManager::callAsync` by the
`deactivate` completion callback (PluginEditor.cpp lines 254-260). -/
def deactivateCompletionTask {α : Type} (status : ActivationStatus)
    (visible : Bool) : List (Event α) :=
  emitEventIfBrowserIsVisible visible
    ⟨"deactivationResult", .obj [("status", .str (statusToString status))]⟩

/-! ### Concrete instances used by witnesses -/

/-- Concrete activation info for witnesses. -/
def infoEx : ActivationInfo :=
  ⟨"AAAA-BBBB", "machine-1", "2025-01-01", 1, 3, true⟩

/-- A concrete activated activation subsystem. -/
def activationEx : Activation :=
  ⟨true, true, infoEx⟩

/-- A concrete processor (metering values in `Int`) with an activated
activation subsystem. -/
def procEx : OxideAudioProcessor Int :=
  ⟨1, 2, 3, 4, 0, false, 5, true, some activationEx⟩

/-- A concrete processor whose activation handle is null. -/
def procNull : OxideAudioProcessor Int :=
  ⟨0, 0, 0, 0, 0, false, 0, false, none⟩

/-- C2: for each of the 15 declared parameter keys (14 continuous, 1
boolean), the editor constructor creates exactly one relay and exactly
one attachment (hence at most one of each) keyed by it; every
attachment binds the parameter looked up by a key to the relay of that
same key, so no key has two relays or two attachments. -/
theorem one_relay_one_attachment_per_key :
    (∀ k : ParamKey, relaysCreated.countP (fun r => r.key == k) = 1)
    ∧ (∀ k : ParamKey, attachmentsCreated.countP (fun a => a.param == k) = 1)
    ∧ (∀ k : ParamKey, attachmentsCreated.countP (fun a => a.relay == k) = 1)
    ∧ attachmentsCreated.all (fun a => a.relay == a.param) = true
    ∧ relaysCreated.length = 15
    ∧ relaysCreated.countP (fun r => r.kind == RelayKind.slider) = 14
    ∧ relaysCreated.countP (fun r => r.kind == RelayKind.toggleButton) = 1
    ∧ attachmentsCreated.countP (fun a => a.kind == RelayKind.slider) = 14
    ∧ attachmentsCreated.countP (fun a => a.kind == RelayKind.toggleButton) = 1 := by
  decide

/-- C3: in the constructor's execution trace, every relay is created
before it is registered with the browser options, every registration
happens before the browser view is constructed, and every attachment is
constructed only after the browser view exists; since each attachment
is bound to the relay of its own key, no attachment is constructed
against a relay that has not been registered with the view. -/
theorem relay_register_view_attachment_order :
    (∀ k : ParamKey,
      CtorStep.createRelay k ∈ constructionTrace
      ∧ CtorStep.registerRelay k ∈ constructionTrace
      ∧ CtorStep.createAttachment k ∈ constructionTrace
      ∧ constructionTrace.indexOf (CtorStep.createRelay k)
          < constructionTrace.indexOf (CtorStep.registerRelay k)
      ∧ constructionTrace.indexOf (CtorStep.registerRelay k)
          < constructionTrace.indexOf CtorStep.createWebView
      ∧ constructionTrace.indexOf CtorStep.createWebView
          < constructionTrace.indexOf (CtorStep.createAttachment k))
    ∧ CtorStep.createWebView ∈ constructionTrace
    ∧ attachmentsCreated.all (fun a => a.relay == a.param) = true := by
  decide

/-- C4 counterexample: the browser view member is declared after the
relays and attachments, so member destruction (reverse declaration
order) releases the browser view strictly before it destroys the
bitcrush relay — the relay is not destroyed before the view is
released, contradicting the claim. -/
theorem webview_released_before_relays :
    DtorStep.destroyMember Member.webViewM ∈ destructionTrace
    ∧ DtorStep.destroyMember (Member.relayM ParamKey.bitcrush) ∈ destructionTrace
    ∧ DtorStep.destroyMember (Member.attachmentM ParamKey.bitcrush) ∈ destructionTrace
    ∧ ¬ (destructionTrace.indexOf (DtorStep.destroyMember (Member.relayM ParamKey.bitcrush))
          < destructionTrace.indexOf (DtorStep.destroyMember Member.webViewM))
    ∧ destructionTrace.indexOf (DtorStep.destroyMember Member.webViewM)
        < destructionTrace.indexOf (DtorStep.destroyMember (Member.relayM ParamKey.bitcrush)) := by
  decide

/-- C4 amended: when the editor is destroyed, the destructor body stops
the visualizer timer first, and then members are destroyed in reverse
declaration order: the browser view is released before any attachment
or relay is destroyed, and each attachment is destroyed before its
relay — every relay outlives the browser view it feeds. -/
theorem editor_destruction_order :
    destructionTrace.indexOf DtorStep.stopTimer = 0
    ∧ DtorStep.destroyMember Member.webViewM ∈ destructionTrace
    ∧ ∀ k : ParamKey,
        DtorStep.destroyMember (Member.relayM k) ∈ destructionTrace
        ∧ DtorStep.destroyMember (Member.attachmentM k) ∈ destructionTrace
        ∧ destructionTrace.indexOf (DtorStep.destroyMember Member.webViewM)
            < destructionTrace.indexOf (DtorStep.destroyMember (Member.attachmentM k))
        ∧ destructionTrace.indexOf (DtorStep.destroyMember (Member.attachmentM k))
            < destructionTrace.indexOf (DtorStep.destroyMember (Member.relayM k)) := by
  decide

/-- C1: one visualizer timer tick emits exactly one `visualizerData`
event, carrying the seven metering values sampled from the processor,
if and only if the browser view exists and is visible; when the view is
absent or hidden the tick emits zero events (a no-op, nothing is
queued). -/
theorem visualizer_tick_emits_iff_visible {α : Type}
    (webViewExists visible : Bool) (proc : OxideAudioProcessor α) :
    timerCallback webViewExists visible proc
      = (if webViewExists && visible
          then [⟨"visualizerData", visualizerPayload proc⟩] else [])
    ∧ ((timerCallback webViewExists visible proc).length = 1
        ↔ webViewExists = true ∧ visible = true)
    ∧ (webViewExists = false ∨ visible = false →
        timerCallback webViewExists visible proc = []) := by
  cases webViewExists <;> cases visible <;>
    simp [timerCallback, emitEventIfBrowserIsVisible]

/-- C1 witness: with the view present and visible one event carrying
the sampled payload is emitted; with the view hidden, or absent, zero
events are emitted. -/
theorem visualizer_tick_emits_iff_visible_witness :
    timerCallback true true procEx
      = [⟨"visualizerData", visualizerPayload procEx⟩]
    ∧ timerCallback true false procEx = []
    ∧ timerCallback false true procEx = [] :=
  ⟨by simpa using (visualizer_tick_emits_iff_visible true true procEx).1,
   (visualizer_tick_emits_iff_visible true false procEx).2.2 (Or.inr rfl),
   (visualizer_tick_emits_iff_visible false true procEx).2.2 (Or.inl rfl)⟩

/-- C7: the registered `getActivationStatus` listener does not reflect
the activation subsystem's current state — with the subsystem reporting
activated it still emits `isActivated = false` and no `info`, whereas
the code's own (declared but never registered) `handleGetActivationStatus`
path emits the current values with `info`.  Evaluation of both paths at
the failing input. -/
theorem getActivationStatus_listener_ignores_state :
    procEx.getActivation.map Activation.isActivated = some true
    ∧ getActivationStatusListener procEx true
        = [⟨"activationState",
            .obj [("isConfigured", .boolVal true),
                  ("isActivated", .boolVal false)]⟩]
    ∧ handleGetActivationStatus procEx true
        = [⟨"activationState",
            .obj [("isConfigured", .boolVal true),
                  ("isActivated", .boolVal true),
                  ("info", activationInfoVar infoEx)]⟩] :=
  ⟨rfl, rfl, rfl⟩

/-- C8 counterexample: a terminal outcome whose redispatched completion
task runs while the browser view is hidden emits zero result events —
the outcome is silently dropped, not emitted exactly once — because
emission goes through the visibility-gated primitive. -/
theorem activation_result_dropped_when_hidden :
    (activateCompletionTask ActivationStatus.Valid infoEx false
        : List (Event Int)) = []
    ∧ (deactivateCompletionTask ActivationStatus.Failed false
        : List (Event Int)) = [] :=
  ⟨rfl, rfl⟩

/-- C8 amended: every terminal outcome of an activate or deactivate
call produces exactly one UI-dispatched emission attempt of the
corresponding result event; the event is emitted exactly once when the
browser view is visible at the moment the redispatched task runs, and
zero times (the outcome is dropped) when it is not. -/
theorem activation_results_emitted_iff_visible {α : Type}
    (status : ActivationStatus) (info : ActivationInfo)
    (visible : Bool) :
    (activateCompletionTask status info visible : List (Event α))
      = (if visible
          then [⟨"activationResult",
                 .obj (if status = ActivationStatus.Valid
                   then [("status", .str (statusToString status)),
                         ("info", activationInfoVar info)]
                   else [("status", .str (statusToString status))])⟩]
          else [])
    ∧ ((activateCompletionTask status info visible
          : List (Event α)).length = 1 ↔ visible = true)
    ∧ (deactivateCompletionTask status visible : List (Event α))
      = (if visible
          then [⟨"deactivationResult",
                 .obj [("status", .str (statusToString status))]⟩]
          else [])
    ∧ ((deactivateCompletionTask status visible
          : List (Event α)).length = 1 ↔ visible = true) := by
  cases visible <;> cases status <;>
    simp [activateCompletionTask, deactivateCompletionTask,
      emitEventIfBrowserIsVisible]

/-- C9: with a null activation handle, sending activation state,
handling an `activateLicense` request and handling a
`deactivateLicense` request are no-ops: no activate or deactivate call
is made and no event is emitted. -/
theorem null_activation_handle_noop {α : Type}
    (proc : OxideAudioProcessor α) (data : JVal α) (visible : Bool)
    (h : proc.getActivation = none) :
    sendActivationState proc visible = []
    ∧ handleActivateLicense proc data = (none, [])
    ∧ handleDeactivateLicense proc data = (false, []) := by
  refine ⟨?_, ?_, ?_⟩ <;>
    simp [sendActivationState, handleActivateLicense,
      handleDeactivateLicense, h]

/-- C9 witness: the three activation-related operations of a processor
whose activation handle is null, evaluated concretely. -/
theorem null_activation_handle_noop_witness :
    sendActivationState procNull true = []
    ∧ handleActivateLicense procNull JVal.void = (none, [])
    ∧ handleDeactivateLicense procNull JVal.void = (false, []) :=
  null_activation_handle_noop procNull JVal.void true rfl

/-- C10: when the activation handle is non-null and the request payload
carries no `code` property, the handler neither fails nor emits an
error event: it calls `activation->activate` with the empty string, the
default value. -/
theorem activate_missing_code_defaults_empty {α : Type}
    (proc : OxideAudioProcessor α) (a : Activation) (data : JVal α)
    (ha : proc.getActivation = some a)
    (hd : data.hasProperty "code" = false) :
    handleActivateLicense proc data = (some "", []) := by
  have hget : JVal.getProperty data "code" (JVal.str "") = JVal.str "" := by
    cases data with
    | obj props =>
        simp only [JVal.hasProperty] at hd
        simp only [JVal.getProperty]
        cases hl : List.lookup "code" props with
        | none => simp [hl]
        | some x => rw [hl] at hd; simp at hd
    | void => rfl
    | str s => rfl
    | boolVal b => rfl
    | intVal n => rfl
    | ext a2 => rfl
  unfold handleActivateLicense
  rw [ha, hget]
  rfl

/-- C10 witness: an empty-object payload (no `code` property) handled
with the concrete activated processor calls activate with the empty
string and emits nothing. -/
theorem activate_missing_code_defaults_empty_witness :
    handleActivateLicense procEx (JVal.obj []) = (some "", []) :=
  activate_missing_code_defaults_empty procEx activationEx
    (JVal.obj []) rfl rfl

end Oxide
